import Mathlib

/-!
Verification model of the hangar repository core examined here: the gRPC remote
server handlers (src/hangar/remote/server.py), the torch dataset adapter
(src/hangar/dataset/torch_dset.py), and the arrayset write/validation layer
exercised by tests/test_arrayset.py.  Python dictionaries and LMDB key spaces
are embedded as association lists; handler control flow (including calls to
grpc context.abort, which raises and terminates the request) is embedded as
explicit outcome values.
-/

namespace Hangar

/-- Lookup in an association list: first entry whose key equals `k`. -/
def alookup {κ : Type} {α : Type} [DecidableEq κ] (l : List (κ × α)) (k : κ) : Option α :=
  match l with
  | [] => none
  | (k2, v) :: rest => if k2 = k then some v else alookup rest k

/-- Update the first entry with key `k`, or append a fresh entry at the end. -/
def aupdate {κ : Type} {α : Type} [DecidableEq κ] (l : List (κ × α)) (k : κ) (v : α) :
    List (κ × α) :=
  match l with
  | [] => [(k, v)]
  | (k2, v2) :: rest => if k2 = k then (k, v) :: rest else (k2, v2) :: aupdate rest k v

/-- Boolean membership test on lists, by decidable equality. -/
def melem {κ : Type} [DecidableEq κ] (x : κ) : List κ → Bool
  | [] => false
  | a :: rest => if a = x then true else melem x rest

/-- Append an element unless already present (order preserving set insertion). -/
def addUniq {κ : Type} [DecidableEq κ] (acc : List κ) (x : κ) : List κ :=
  if melem x acc then acc else acc ++ [x]

/-- Order preserving removal of duplicates; embeds conversion of a Python list to a set. -/
def dedupL {κ : Type} [DecidableEq κ] (l : List κ) : List κ :=
  l.foldl addUniq []

/-- Embeds Python `list(set(a).difference(set(b)))`: elements of `a` not in `b`
(iteration order of the Python set is modelled as first-occurrence order of `a`). -/
def setDiffL {κ : Type} [DecidableEq κ] (a b : List κ) : List κ :=
  (dedupL a).filter (fun x => !(melem x b))

/-- Number of entries in an association list holding the key `k`. -/
def countKey {κ : Type} {α : Type} [DecidableEq κ] (l : List (κ × α)) (k : κ) : Nat :=
  (l.filter (fun p => decide (p.1 = k))).length

section AssocLemmas

variable {κ : Type} {α : Type} [DecidableEq κ]

theorem melem_iff (x : κ) (l : List κ) : melem x l = true ↔ x ∈ l := by
  induction l with
  | nil => simp [melem]
  | cons a rest ih =>
    unfold melem
    by_cases h : a = x
    · subst h; simp
    · rw [if_neg h, ih]
      constructor
      · exact fun hx => List.mem_cons_of_mem a hx
      · intro hx
        rcases List.mem_cons.mp hx with hx | hx
        · exact absurd hx.symm h
        · exact hx

theorem mem_addUniq (x y : κ) (acc : List κ) :
    x ∈ addUniq acc y ↔ x ∈ acc ∨ x = y := by
  unfold addUniq
  by_cases h : melem y acc = true
  · rw [if_pos h]
    constructor
    · exact fun hx => Or.inl hx
    · rintro (hx | rfl)
      · exact hx
      · exact (melem_iff x acc).mp h
  · rw [if_neg h]
    simp

theorem mem_foldl_addUniq (x : κ) (l acc : List κ) :
    x ∈ l.foldl addUniq acc ↔ x ∈ acc ∨ x ∈ l := by
  induction l generalizing acc with
  | nil => simp
  | cons a rest ih =>
    simp only [List.foldl_cons, ih, mem_addUniq, List.mem_cons]
    tauto

theorem mem_dedupL (x : κ) (l : List κ) : x ∈ dedupL l ↔ x ∈ l := by
  unfold dedupL
  rw [mem_foldl_addUniq]
  simp

theorem mem_setDiffL (x : κ) (a b : List κ) :
    x ∈ setDiffL a b ↔ x ∈ a ∧ x ∉ b := by
  unfold setDiffL
  rw [List.mem_filter, mem_dedupL]
  constructor
  · rintro ⟨ha, hb⟩
    refine ⟨ha, fun hxb => ?_⟩
    rw [Bool.not_eq_true', ← Bool.not_eq_true] at hb
    exact hb ((melem_iff x b).mpr hxb)
  · rintro ⟨ha, hb⟩
    refine ⟨ha, ?_⟩
    have : melem x b = false := by
      rw [← Bool.not_eq_true]
      exact fun hm => hb ((melem_iff x b).mp hm)
    simp [this]

theorem alookup_aupdate_self (l : List (κ × α)) (k : κ) (v : α) :
    alookup (aupdate l k v) k = some v := by
  induction l with
  | nil => simp [aupdate, alookup]
  | cons p rest ih =>
    obtain ⟨k2, v2⟩ := p
    by_cases h : k2 = k
    · simp [aupdate, h, alookup]
    · simp [aupdate, h, alookup, ih]

theorem alookup_aupdate_other (l : List (κ × α)) (k k2 : κ) (v : α) (h : k2 ≠ k) :
    alookup (aupdate l k v) k2 = alookup l k2 := by
  have hk2k : ¬ k = k2 := fun he => h he.symm
  induction l with
  | nil => simp [aupdate, alookup, hk2k]
  | cons p rest ih =>
    obtain ⟨ka, va⟩ := p
    by_cases hka : ka = k
    · subst hka
      simp [aupdate, alookup, hk2k]
    · simp [aupdate, hka, alookup, ih]

theorem length_aupdate_none (l : List (κ × α)) (k : κ) (v : α)
    (h : alookup l k = none) : (aupdate l k v).length = l.length + 1 := by
  induction l with
  | nil => simp [aupdate]
  | cons p rest ih =>
    obtain ⟨k2, v2⟩ := p
    by_cases hk : k2 = k
    · simp [alookup, hk] at h
    · simp only [alookup, hk, if_false] at h
      simp [aupdate, hk, ih h]

theorem length_aupdate_some (l : List (κ × α)) (k : κ) (v w : α)
    (h : alookup l k = some w) : (aupdate l k v).length = l.length := by
  induction l with
  | nil => simp [alookup] at h
  | cons p rest ih =>
    obtain ⟨k2, v2⟩ := p
    by_cases hk : k2 = k
    · simp [aupdate, hk]
    · simp only [alookup, hk, if_false] at h
      simp [aupdate, hk, ih h]

theorem countKey_eq_zero_of_alookup_none (l : List (κ × α)) (k : κ)
    (h : alookup l k = none) : countKey l k = 0 := by
  induction l with
  | nil => simp [countKey]
  | cons p rest ih =>
    obtain ⟨k2, v2⟩ := p
    by_cases hk : k2 = k
    · simp [alookup, hk] at h
    · simp only [alookup, hk, if_false] at h
      simpa [countKey, hk] using ih h

end AssocLemmas

/-! ## Remote server data model (src/hangar/remote/server.py) -/

/-- gRPC status codes used by the server handlers. -/
inductive StatusCode
  | ok
  | notFound
  | alreadyExists
  | failedPrecondition
  | dataLoss
  | internal
  | permissionDenied
deriving DecidableEq

/-- In-band error message carried inside reply protos (`ErrorProto` in the
hangar service definition). -/
structure ErrorProto where
  code : Nat
  message : String
deriving DecidableEq

/-- Branch record proto: branch name and head commit digest. -/
structure BranchRecord where
  name : String
  commit : String
deriving DecidableEq

/-- Stored commit record: parsed parent digests, spec bytes and ref blob bytes
(the three refenv entries written per commit). -/
structure CommitRec where
  parents : List String
  spec : List Nat
  ref : List Nat
deriving DecidableEq

/-- The server-side repository state touched by the handlers under study:
the DataWriter context flag `is_cm`, the refenv commit records, the schema
records, the branch heads, the hash index digest → backend locator, and the
payloads persisted by the DataWriter. -/
structure ServerState where
  is_cm : Bool
  refs : List (String × CommitRec)
  schemas : List (String × List Nat)
  branches : List (String × String)
  hashDb : List (String × String)
  dataStore : List (String × List Nat)
deriving DecidableEq

/-- Outcome of a unary handler: either the call was aborted via
`context.abort(code, ...)` (which raises inside the handler, terminating the
RPC with that error status and no reply message), or a reply proto was
returned together with the call status (default OK, possibly overridden by
`context.set_code`), or the handler hit an unhandled Python exception. -/
inductive UnaryResult (α : Type)
  | abort (code : StatusCode)
  | reply (status : StatusCode) (resp : α)
  | unhandled
deriving DecidableEq

/-- Embeds `HangarServer.PushBranchRecord` (server.py lines 171-192): create the
branch when absent; abort `ALREADY_EXISTS` when the head already equals the
pushed commit; otherwise move the head. -/
def PushBranchRecord (st : ServerState) (rec : BranchRecord) :
    UnaryResult ErrorProto × ServerState :=
  match alookup st.branches rec.name with
  | none =>
      (UnaryResult.reply StatusCode.ok ⟨0, "OK"⟩,
        { st with branches := (rec.name, rec.commit) :: st.branches })
  | some current_head =>
      if current_head = rec.commit then
        (UnaryResult.abort StatusCode.alreadyExists, st)
      else
        (UnaryResult.reply StatusCode.ok ⟨0, "OK"⟩,
          { st with branches := aupdate st.branches rec.name rec.commit })

/-- One frame of the `PushCommit` client stream (fields of
`PushCommitRequest` read by the handler). -/
structure PushCommitRequest where
  commit : String
  total_byte_size : Nat
  parent : List String
  spec : List Nat
  ref_chunk : List Nat
deriving DecidableEq

/-- Splice assignment `buf[off : off + len xs] = xs` on a byte buffer. -/
def writeSlice (buf : List Nat) (off : Nat) (xs : List Nat) : List Nat :=
  buf.take off ++ xs ++ buf.drop (off + xs.length)

/-- The chunk-reassembly loop shared by `PushCommit`, `PushData` and the
find-missing handlers: allocate `bytearray(total)` and splice each chunk at the
running offset. -/
def assembleChunks (total : Nat) (chunksL : List (List Nat)) : List Nat :=
  (chunksL.foldl
    (fun acc x => (writeSlice acc.1 acc.2 x, acc.2 + x.length))
    (List.replicate total 0, 0)).1

/-- Modelled from the spec: `ContentWriter.commit` (remote/content.py, not under
src/) records the commit refs entry; if the commit digest is already recorded it
writes nothing and returns a falsy value — "Will not overwrite data if a commit
hash is already recorded on the server" (server.py docstring, spec section 4.5
step 4). -/
def CW_commit (st : ServerState) (commit : String) (parents : List String)
    (specb refb : List Nat) : Option String × ServerState :=
  match alookup st.refs commit with
  | some _ => (none, st)
  | none =>
      (some commit, { st with refs := (commit, ⟨parents, specb, refb⟩) :: st.refs })

/-- Modelled from the spec: `ContentWriter.schema` records a schema blob under
its digest; a digest already present is not overwritten and a falsy value is
returned ("Will not overwrite a schema hash which already exists on the
server"). -/
def CW_schema (st : ServerState) (schema_hash : String) (blob : List Nat) :
    Option String × ServerState :=
  match alookup st.schemas schema_hash with
  | some _ => (none, st)
  | none =>
      (some schema_hash, { st with schemas := (schema_hash, blob) :: st.schemas })

/-- Embeds `HangarServer.PushCommit` (server.py lines 232-258): reassemble the
ref blob from the stream, call `ContentWriter.commit`; on a falsy digest set
status `ALREADY_EXISTS` with error proto code 6, otherwise reply OK.  An empty
stream leaves the loop locals unbound and the handler dies with a NameError. -/
def PushCommit (st : ServerState) (reqs : List PushCommitRequest) :
    UnaryResult ErrorProto × ServerState :=
  match reqs with
  | [] => (UnaryResult.unhandled, st)
  | first :: _ =>
      let refBytes := assembleChunks first.total_byte_size (reqs.map (·.ref_chunk))
      match CW_commit st first.commit first.parent first.spec refBytes with
      | (none, st2) =>
          (UnaryResult.reply StatusCode.alreadyExists ⟨6, "ALREADY EXISTS"⟩, st2)
      | (some _, st2) =>
          (UnaryResult.reply StatusCode.ok ⟨0, "OK"⟩, st2)

/-- Embeds `HangarServer.PushSchema` (server.py lines 287-306). -/
def PushSchema (st : ServerState) (schema_hash : String) (blob : List Nat) :
    UnaryResult ErrorProto × ServerState :=
  match CW_schema st schema_hash blob with
  | (none, st2) =>
      (UnaryResult.reply StatusCode.alreadyExists ⟨6, "ALREADY EXISTS"⟩, st2)
  | (some _, st2) =>
      (UnaryResult.reply StatusCode.ok ⟨0, "OK"⟩, st2)

/-- Embeds `HangarServer.PushBeginContext` — `DataWriter.__enter__` opens the
writer context (the DataWriter itself lives in remote/content.py, outside src/;
its context flag `is_cm` is the only part the handlers read). -/
def PushBeginContext (st : ServerState) : UnaryResult ErrorProto × ServerState :=
  (UnaryResult.reply StatusCode.ok ⟨0, "OK"⟩, { st with is_cm := true })

/-- Embeds `HangarServer.PushEndContext` — `DataWriter.__exit__` closes the
writer context. -/
def PushEndContext (st : ServerState) : UnaryResult ErrorProto × ServerState :=
  (UnaryResult.reply StatusCode.ok ⟨0, "OK"⟩, { st with is_cm := false })

/-- One frame of the `PushData` client stream (fields of `PushDataRequest`
read by the handler). -/
structure PushDataRequest where
  uri : String
  data_type : Nat
  schema_hash : String
  nbytes : Nat
  raw_data : List Nat
deriving DecidableEq

/-- Outcome of the `PushData` handler.  The three abort constructors embed the
three `context.abort` sites (which raise, terminating the RPC with that
status); `unboundLocal` is the NameError an empty stream produces after the
loop; `okReply` is the normal return of a `PushDataReply`. -/
inductive PushDataOutcome
  | abortFailedPrecondition
  | abortDataLoss
  | abortInternal
  | unboundLocal
  | okReply (err : ErrorProto)
deriving DecidableEq

/-- Modelled from the spec: `DataWriter.data` (remote/content.py, not under
src/) persists the received sample: backend write of the payload plus a hash
index entry digest → locator (spec sections 4.3 and 4.7). -/
def DW_data (st : ServerState) (digest : String) (data : List Nat) : ServerState :=
  { st with
    dataStore := (digest, data) :: st.dataStore,
    hashDb := (digest, "00server") :: st.hashDb }

/-- Embeds `HangarServer.PushData` (server.py lines 486-540).  On the first
frame the handler aborts `FAILED_PRECONDITION` when no writer context is open;
it then reassembles the compressed bytes, decompresses, deserializes, re-hashes
with the type-code hash function, aborts `DATA_LOSS` on digest mismatch, and
only then hands the sample to `DataWriter.data`.  The blosc codec, the chunk
deserializer and the hash function are external collaborators, taken as
parameters. -/
def PushData (decompress : List Nat → List Nat)
    (deserialize : Nat → List Nat → List Nat)
    (hash_func : Nat → List Nat → String)
    (st : ServerState) (reqs : List PushDataRequest) :
    PushDataOutcome × ServerState :=
  match reqs with
  | [] => (PushDataOutcome.unboundLocal, st)
  | first :: _ =>
      if st.is_cm = false then
        (PushDataOutcome.abortFailedPrecondition, st)
      else
        let dBytes := assembleChunks first.nbytes (reqs.map (·.raw_data))
        let uncompBytes := decompress dBytes
        let recievedData := deserialize first.data_type uncompBytes
        let recievedHash := hash_func first.data_type recievedData
        if recievedHash ≠ first.uri then
          (PushDataOutcome.abortDataLoss, st)
        else
          (PushDataOutcome.okReply ⟨0, "OK"⟩, DW_data st recievedHash recievedData)

/-! ## Find-missing reconciliation (server.py lines 544-599) -/

/-- Parent digests of a commit recorded in refs (empty when unknown). -/
def parentsOf (refs : List (String × CommitRec)) (cmt : String) : List String :=
  match alookup refs cmt with
  | some r => r.parents
  | none => []

/-- One closure step over parent pointers: extend `acc` with every parent of a
member not yet listed. -/
def historyStep (refs : List (String × CommitRec)) (acc : List String) :
    List String :=
  acc.foldl (fun a cmt => (parentsOf refs cmt).foldl addUniq a) acc

/-- Fuel-bounded iteration of `historyStep`. -/
def historyClosure (refs : List (String × CommitRec)) :
    Nat → List String → List String
  | 0, acc => acc
  | n + 1, acc => historyClosure refs n (historyStep refs acc)

/-- Modelled from the spec: `summarize.list_history` (records/summarize.py, not
under src/) returns the commits reachable from the head of a branch by
following parent pointers (spec section 4.6, `history(name)`); computed as a
parent-pointer closure with fuel bounded by the number of commit records. -/
def listHistoryOrder (refs : List (String × CommitRec)) (head : String) :
    List String :=
  historyClosure refs (refs.length + 1) [head]

/-- Reply proto of the find-missing-commits handlers, together with the call
status set on the context. -/
structure FindMissingCommitsReply where
  branch : BranchRecord
  commits : List String
  error : ErrorProto
  status : StatusCode
deriving DecidableEq

/-- Embeds `HangarServer.FetchFindMissingCommits` (server.py lines 544-576):
reply with the commits of the server branch history that the client did not
list, or a NOT_FOUND reply when the branch does not exist on the server. -/
def FetchFindMissingCommits (st : ServerState) (branch_name : String)
    (c_ordered_commits : List String) : FindMissingCommitsReply :=
  match alookup st.branches branch_name with
  | none =>
      { branch := ⟨"", ""⟩, commits := [],
        error := ⟨5, "BRANCH NOT EXIST"⟩, status := StatusCode.notFound }
  | some head =>
      let s_history := listHistoryOrder st.refs head
      let c_missing := setDiffL s_history c_ordered_commits
      { branch := ⟨branch_name, head⟩, commits := c_missing,
        error := ⟨0, "OK"⟩, status := StatusCode.ok }

/-- Modelled from the spec: `commiting.list_all_commits` (records/commiting.py,
not under src/) lists every commit digest recorded in the refenv. -/
def list_all_commits (st : ServerState) : List String :=
  st.refs.map (·.1)

/-- Embeds `HangarServer.PushFindMissingCommits` (server.py lines 578-599):
reply with the commits of the client list that the server does not hold. -/
def PushFindMissingCommits (st : ServerState) (branch : BranchRecord)
    (c_ordered_commits : List String) : FindMissingCommitsReply :=
  let s_missing := setDiffL c_ordered_commits (list_all_commits st)
  { branch := branch, commits := s_missing,
    error := ⟨0, "OK"⟩, status := StatusCode.ok }

/-! ## Streaming fetch handlers (server.py lines 196-231 and 310-352)

A generator handler is embedded as the finite list of frames it yields plus how
it terminates.  Under the generator-stop semantics in force since Python 3.7
(PEP 479), a `raise StopIteration()` executed inside a generator body is
converted by the runtime into a `RuntimeError`, which grpc surfaces as a
transport-level error — the stream does not end normally. -/

/-- How a generator handler terminates: normal exhaustion, or a RuntimeError
escaping the generator (transport abort). -/
inductive StreamEnd
  | normal
  | runtimeError
deriving DecidableEq

/-- Result of running a streaming handler to completion: yielded frames, the
termination kind, and the status code set on the context. -/
structure StreamResult (α : Type) where
  frames : List α
  ending : StreamEnd
  status : StatusCode
deriving DecidableEq

/-- Modelled from the spec: `chunks.chunk_bytes` (remote/chunks.py, not under
src/) frames a byte payload into ordered fixed-size chunks (spec section 4.7,
size-bounded chunked stream). -/
def CHUNK_MAX_NBYTES : Nat := 32000

def chunkBytesFuel : Nat → List Nat → List (List Nat)
  | 0, _ => []
  | fuel + 1, buf =>
      if buf.length ≤ CHUNK_MAX_NBYTES then [buf]
      else buf.take CHUNK_MAX_NBYTES :: chunkBytesFuel fuel (buf.drop CHUNK_MAX_NBYTES)

def chunkBytes (buf : List Nat) : List (List Nat) :=
  chunkBytesFuel (buf.length + 1) buf

/-- Frame of the `FetchCommit` server stream (`FetchCommitReply` proto with its
nested `CommitRecord`; unset proto fields carry their defaults). -/
structure FetchCommitReply where
  commit : String
  total_byte_size : Nat
  parent : List String
  spec : List Nat
  ref : List Nat
  error : ErrorProto
deriving DecidableEq

/-- Embeds `HangarServer.FetchCommit` (server.py lines 196-231).  On a missing
commit the generator yields one reply carrying error proto code 5 with
NOT_FOUND set on the context, then executes `raise StopIteration()` — which the
runtime turns into a RuntimeError (PEP 479).  On a present commit it streams
the ref blob in chunks and ends normally. -/
def FetchCommit (st : ServerState) (commit : String) :
    StreamResult FetchCommitReply :=
  match alookup st.refs commit with
  | none =>
      { frames := [{ commit := commit, total_byte_size := 0, parent := [],
                     spec := [], ref := [],
                     error := ⟨5, "COMMIT DOES NOT EXIST ON SERVER"⟩ }],
        ending := StreamEnd.runtimeError,
        status := StatusCode.notFound }
  | some rec =>
      let bsize := rec.ref.length
      { frames := (chunkBytes rec.ref).map (fun ch =>
          { commit := commit, total_byte_size := bsize, parent := rec.parents,
            spec := rec.spec, ref := ch, error := ⟨0, ""⟩ }),
        ending := StreamEnd.normal,
        status := StatusCode.ok }

/-- Payload kind enum (`DataType` proto enum). -/
inductive DataType
  | npArray
  | str
  | bytes
deriving DecidableEq

/-- Location enum (`DataLocation` proto enum); the server always advertises
itself. -/
inductive DataLocation
  | remoteServer
deriving DecidableEq

/-- `DataOriginReply` proto: where a digest lives and how its payload will be
compressed.  Compression options are a proto string map, kept in insertion
order. -/
structure DataOriginReply where
  location : DataLocation
  data_type : DataType
  digest : String
  uri : String
  compression : Bool
  compression_opts : List (String × String)
deriving DecidableEq

/-- Frames of the `FetchFindDataOrigin` response stream: the missing-digest
branch yields a bare `FetchDataReply` carrying only the error proto, the found
branch yields a `DataOriginReply`. -/
inductive FFDOFrame
  | errFrame (err : ErrorProto)
  | origin (r : DataOriginReply)
deriving DecidableEq

/-- Two-character backend code of a locator (`backend_decoder` reads the
locator value whose first two characters name the accessor). -/
def backendCode (locator : String) : String :=
  String.mk (locator.toList.take 2)

/-- Processing loop of `FetchFindDataOrigin` over the collected digests.  A
missing digest yields one error frame, then `raise StopIteration()` becomes a
RuntimeError (PEP 479).  An unrecognized backend raises TypeError (also a
transport error, with no frame for that digest). -/
def FFDOLoop (st : ServerState) : List String → StreamResult FFDOFrame
  | [] => { frames := [], ending := StreamEnd.normal, status := StatusCode.ok }
  | d :: rest =>
      match alookup st.hashDb d with
      | none =>
          { frames := [FFDOFrame.errFrame ⟨5, "HASH DOES NOT EXIST"⟩],
            ending := StreamEnd.runtimeError, status := StatusCode.notFound }
      | some loc =>
          let b := backendCode loc
          let mkOrigin : DataType → FFDOFrame := fun dt =>
            FFDOFrame.origin
              { location := DataLocation.remoteServer, data_type := dt,
                digest := d, uri := d, compression := true,
                compression_opts := [("id", "blosc"), ("cname", "blosclz"), ("clevel", "3")] }
          if b = "01" ∨ b = "00" ∨ b = "10" then
            let res := FFDOLoop st rest
            { res with frames := mkOrigin DataType.npArray :: res.frames }
          else if b = "30" then
            let res := FFDOLoop st rest
            { res with frames := mkOrigin DataType.str :: res.frames }
          else if b = "31" then
            let res := FFDOLoop st rest
            { res with frames := mkOrigin DataType.bytes :: res.frames }
          else
            { frames := [], ending := StreamEnd.runtimeError,
              status := StatusCode.ok }

/-- Embeds `HangarServer.FetchFindDataOrigin` (server.py lines 310-352): the
bidi stream first collects every requested digest, then answers each with its
origin info; every found digest — whatever its backend — is advertised with
compression options blosc / blosclz / level 3. -/
def FetchFindDataOrigin (st : ServerState) (digests : List String) :
    StreamResult FFDOFrame :=
  FFDOLoop st digests

/-- Request frame of `PushFindDataOrigin`. -/
structure PushFindDataOriginRequest where
  digest : String
  data_type : DataType
  compression_is_desired : Bool
deriving DecidableEq

/-- Reply frame of `PushFindDataOrigin`. -/
structure PushFindDataOriginReply where
  digest : String
  location : DataLocation
  uri : String
  compression_expected : Bool
  compression_opts_expected : List (String × String)
deriving DecidableEq

/-- Per-request reply construction of `HangarServer.PushFindDataOrigin`
(server.py lines 408-456): when compression is desired the expected options are
blosc / blosclz / 3 for arrays and bytes and blosc / zstd / 3 for strings. -/
def PushFindDataOriginOne (req : PushFindDataOriginRequest) :
    PushFindDataOriginReply :=
  let eo : Bool × List (String × String) :=
    if req.compression_is_desired = true then
      match req.data_type with
      | DataType.npArray =>
          (true, [("id", "blosc"), ("cname", "blosclz"), ("clevel", "3")])
      | DataType.str =>
          (true, [("id", "blosc"), ("cname", "zstd"), ("clevel", "3")])
      | DataType.bytes =>
          (true, [("id", "blosc"), ("cname", "blosclz"), ("clevel", "3")])
    else
      (false, [])
  { digest := req.digest, location := DataLocation.remoteServer,
    uri := req.digest, compression_expected := eo.1,
    compression_opts_expected := eo.2 }

/-- Embeds `HangarServer.PushFindDataOrigin`: all requests are collected, then
answered one reply per request. -/
def PushFindDataOrigin (reqs : List PushFindDataOriginRequest) :
    List PushFindDataOriginReply :=
  reqs.map PushFindDataOriginOne

/-! ## Arrayset write layer

The arrayset implementation (hangar/arrayset.py) is not under src/ — only its
tests are (tests/test_arrayset.py).  The definitions below are modelled from
the spec (sections 3 and 4.4) and checked against the behaviours those tests
pin down. -/

/-- A dense tensor value: runtime shape, dtype tag and row-major payload. -/
structure Tensor where
  shape : List Nat
  dtype : Nat
  flat : List Nat
deriving DecidableEq

/-- An arrayset schema: fixed shape (per-axis maximum when variable), dtype
tag and the variable-shape flag (spec section 3, Schema). -/
structure Schema where
  shape : List Nat
  dtype : Nat
  variable_shape : Bool
deriving DecidableEq

/-- A sample key as supplied by a caller: an integer, a string, or a float
(floats are representable at the call site but are never valid keys; one is
carried as numerator and positive denominator so concrete test inputs such as
2.1 and 0.0 can be written down). -/
inductive SampleKey
  | intKey (n : Int)
  | strKey (s : String)
  | floatKey (num : Int) (den : Nat)
deriving DecidableEq

/-- Characters permitted in string sample keys (spec section 3, Sample). -/
def validKeyChar (ch : Char) : Bool :=
  ch.isAlphanum || ch = '_' || ch = '.' || ch = '-'

/-- Modelled from the spec: key validation of the arrayset layer — sample keys
are either non-negative integers or strings of length 1-64 over the permitted
character set; float keys are always rejected (spec section 3 and the
boundaries of section 8). -/
def isSuitableUserKey : SampleKey → Bool
  | SampleKey.intKey n => decide (0 ≤ n)
  | SampleKey.strKey s =>
      decide (1 ≤ s.length) && decide (s.length ≤ 64) && s.toList.all validKeyChar
  | SampleKey.floatKey _ _ => false

/-- Modelled from the spec: schema validation of a write (spec sections 3
invariant 3, 4.4 and the boundaries of section 8).  With
`variable_shape = false` the runtime shape and dtype must match the schema
exactly; with `variable_shape = true` the dtype must match, the rank must equal
the schema rank, and every dimension must stay within the per-axis maximum. -/
def schemaShapeOk (sch : Schema) (t : Tensor) : Bool :=
  if sch.variable_shape then
    decide (t.dtype = sch.dtype) && decide (t.shape.length = sch.shape.length) &&
      (t.shape.zip sch.shape).all (fun p => decide (p.1 ≤ p.2))
  else
    decide (t.dtype = sch.dtype) && decide (t.shape = sch.shape)

/-- State of one arrayset inside a writer checkout: its schema, the sample
key → digest mapping, and the hash index digest → backend locator shared with
the repository. -/
structure ArraysetState where
  schema : Schema
  samples : List (SampleKey × String)
  hashIndex : List (String × String)
deriving DecidableEq

/-- Modelled from the spec: `set(key, value)` of the arrayset layer (spec
section 4.4) — validate the key, validate the value against the schema,
compute the content digest, deduplicate through the hash index (an existing
digest entry is reused and no payload is written), and record key → digest.
All validation happens before any mutation; on failure the unchanged state is
returned together with the ValueError message. -/
def aset_set (hashOf : Tensor → String) (st : ArraysetState)
    (key : SampleKey) (value : Tensor) : ArraysetState × Option String :=
  if isSuitableUserKey key = false then
    (st, some "ValueError: invalid sample key")
  else if schemaShapeOk st.schema value = false then
    (st, some "ValueError: data incompatible with schema")
  else
    let digest := hashOf value
    let hashIndex2 :=
      match alookup st.hashIndex digest with
      | some _ => st.hashIndex
      | none => (digest, "loc" ++ toString st.hashIndex.length) :: st.hashIndex
    ({ st with samples := aupdate st.samples key digest, hashIndex := hashIndex2 },
      none)

/-! ## Torch dataset adapter (src/hangar/dataset/torch_dset.py) -/

/-- The HangarDataset collaborator (dataset/common.py, not under src/) as the
adapter sees it: the ordered column mapping and `index_get`, which yields the
aligned components at an index (one component per wrapped column). -/
structure HangarDataset (V C : Type) where
  columns : List (String × C)
  index_get : Nat → List V

/-- Embeds `TorchDataset.__init__`: the wrapped dataset, the snapshot
`list(hangar_dataset.columns.keys())` and the `as_dict` flag. -/
structure TorchDataset (V C : Type) where
  dataset : HangarDataset V C
  column_names : List String
  as_dict : Bool

/-- Constructor of `TorchDataset` from a HangarDataset. -/
def TorchDataset.make {V C : Type} (hd : HangarDataset V C) (as_dict : Bool) :
    TorchDataset V C :=
  { dataset := hd, column_names := hd.columns.map (·.1), as_dict := as_dict }

/-- Possible results of `TorchDataset.__getitem__`: the raw `index_get` value,
a single-entry dict mapping the lone column name to that whole value, or an
OrderedDict zipping column names with the components. -/
inductive TorchItem (V : Type)
  | raw (data : List V)
  | dict (entries : List (String × List V))
  | odict (entries : List (String × V))
deriving DecidableEq

/-- Embeds `TorchDataset.__getitem__` (torch_dset.py lines 34-41): fetch
`index_get(index)`; hand it back as is unless `as_dict`; with exactly one
column wrap it in a single-entry dict; otherwise zip the column names with the
components into an OrderedDict (Python `zip` truncates to the shorter side). -/
def torchGetitem {V C : Type} (td : TorchDataset V C) (index : Nat) :
    TorchItem V :=
  let data := td.dataset.index_get index
  if td.as_dict = false then
    TorchItem.raw data
  else
    match td.column_names with
    | [n] => TorchItem.dict [(n, data)]
    | names => TorchItem.odict (names.zip data)

/-! ## Concrete states used by witnesses and counterexamples -/

/-- A freshly initialised server repository: no commits, schemas, branches or
data, and no open push context. -/
def emptyServer : ServerState :=
  { is_cm := false, refs := [], schemas := [], branches := [],
    hashDb := [], dataStore := [] }

/-- A server already holding commit c1, schema s1 and branch master at c1. -/
def stRepush : ServerState :=
  { is_cm := false,
    refs := [("c1", ⟨[], [0], [1, 2]⟩)],
    schemas := [("s1", [9])],
    branches := [("master", "c1")],
    hashDb := [], dataStore := [] }

/-! ## Claim theorems -/

/-- C1: inside an open push context, a PushData stream whose reassembled
payload re-hashes to a digest different from the client-asserted uri is
aborted with DATA_LOSS; the DataWriter is never invoked, the state is
unchanged, and in particular a digest the server did not hold before is still
absent afterwards. -/
theorem pushdata_digest_mismatch_aborts_data_loss
    (decompress : List Nat → List Nat) (deserialize : Nat → List Nat → List Nat)
    (hash_func : Nat → List Nat → String)
    (st : ServerState) (first : PushDataRequest) (rest : List PushDataRequest)
    (hcm : st.is_cm = true)
    (hmis : hash_func first.data_type
        (deserialize first.data_type
          (decompress
            (assembleChunks first.nbytes ((first :: rest).map (·.raw_data)))))
        ≠ first.uri) :
    PushData decompress deserialize hash_func st (first :: rest)
      = (PushDataOutcome.abortDataLoss, st) ∧
    (alookup st.dataStore first.uri = none →
      alookup (PushData decompress deserialize hash_func st
        (first :: rest)).2.dataStore first.uri = none) := by
  have hmain : PushData decompress deserialize hash_func st (first :: rest)
      = (PushDataOutcome.abortDataLoss, st) := by
    simp only [List.map_cons] at hmis
    simp [PushData, hcm, hmis]
  exact ⟨hmain, fun h => by rw [hmain]; exact h⟩

/-- Witness for C1: a concrete tampered frame (payload hashing to a digest
other than the asserted uri) is rejected with DATA_LOSS on a server whose push
context is open, leaving the state untouched. -/
theorem pushdata_digest_mismatch_aborts_data_loss_witness :
    PushData id (fun _ b => b) (fun _ b => toString b.length)
        { emptyServer with is_cm := true }
        [⟨"deadbeef", 0, "s1", 1, [7]⟩]
      = (PushDataOutcome.abortDataLoss, { emptyServer with is_cm := true }) ∧
    alookup ({ emptyServer with is_cm := true } : ServerState).dataStore "deadbeef"
      = none :=
  ⟨(pushdata_digest_mismatch_aborts_data_loss id (fun _ b => b)
      (fun _ b => toString b.length) { emptyServer with is_cm := true }
      ⟨"deadbeef", 0, "s1", 1, [7]⟩ [] rfl (by decide)).1,
   rfl⟩

/-- C2: a non-empty PushData stream arriving while no push writer context is
open is aborted with FAILED_PRECONDITION on its first frame, before any payload
byte is assembled or persisted — the state is returned untouched. -/
theorem pushdata_without_context_failed_precondition
    (decompress : List Nat → List Nat) (deserialize : Nat → List Nat → List Nat)
    (hash_func : Nat → List Nat → String)
    (st : ServerState) (first : PushDataRequest) (rest : List PushDataRequest)
    (hcm : st.is_cm = false) :
    PushData decompress deserialize hash_func st (first :: rest)
      = (PushDataOutcome.abortFailedPrecondition, st) := by
  simp [PushData, hcm]

/-- Witness for C2: a concrete PushData frame sent to a fresh server (no
PushBeginContext) is rejected with FAILED_PRECONDITION. -/
theorem pushdata_without_context_failed_precondition_witness :
    PushData id (fun _ b => b) (fun _ b => toString b.length) emptyServer
        [⟨"deadbeef", 0, "s1", 1, [7]⟩]
      = (PushDataOutcome.abortFailedPrecondition, emptyServer) :=
  pushdata_without_context_failed_precondition id (fun _ b => b)
    (fun _ b => toString b.length) emptyServer ⟨"deadbeef", 0, "s1", 1, [7]⟩ [] rfl

/-- Counterexample for C3: re-pushing existing content does not return an OK
status.  On a server already holding commit c1 and branch master at c1,
PushCommit of c1 replies with call status ALREADY_EXISTS (error proto code 6)
and PushBranchRecord of the identical head aborts the call with
ALREADY_EXISTS — both are non-OK statuses. -/
theorem repush_not_success_counterexample :
    (PushCommit stRepush [⟨"c1", 2, [], [0], [1, 2]⟩]).1
      = UnaryResult.reply StatusCode.alreadyExists ⟨6, "ALREADY EXISTS"⟩ ∧
    StatusCode.alreadyExists ≠ StatusCode.ok ∧
    (PushBranchRecord stRepush ⟨"master", "c1"⟩).1
      = UnaryResult.abort StatusCode.alreadyExists := by
  decide

/-- C3 (amended): re-pushing content the server already holds is idempotent on
state — the refs, schemas and branches are unchanged — but it is signalled as
ALREADY_EXISTS, not as success: PushCommit and PushSchema return a reply with
error proto code 6 and call status ALREADY_EXISTS, while PushBranchRecord on an
identical head aborts the call with ALREADY_EXISTS. -/
theorem repush_idempotent_state_already_exists_status
    (st : ServerState) (creq : PushCommitRequest) (rec : CommitRec)
    (hc : alookup st.refs creq.commit = some rec)
    (crest : List PushCommitRequest)
    (sh : String) (blob sblob : List Nat)
    (hs : alookup st.schemas sh = some sblob)
    (br : BranchRecord) (hb : alookup st.branches br.name = some br.commit) :
    PushCommit st (creq :: crest)
      = (UnaryResult.reply StatusCode.alreadyExists ⟨6, "ALREADY EXISTS"⟩, st) ∧
    PushSchema st sh blob
      = (UnaryResult.reply StatusCode.alreadyExists ⟨6, "ALREADY EXISTS"⟩, st) ∧
    PushBranchRecord st br = (UnaryResult.abort StatusCode.alreadyExists, st) := by
  refine ⟨?_, ?_, ?_⟩
  · simp [PushCommit, CW_commit, hc]
  · simp [PushSchema, CW_schema, hs]
  · simp [PushBranchRecord, hb]

/-- Witness for C3 (amended): the concrete re-pushes on `stRepush` leave the
state equal to `stRepush` and carry ALREADY_EXISTS. -/
theorem repush_idempotent_state_already_exists_status_witness :
    PushCommit stRepush [⟨"c1", 2, [], [0], [1, 2]⟩]
      = (UnaryResult.reply StatusCode.alreadyExists ⟨6, "ALREADY EXISTS"⟩, stRepush) ∧
    PushSchema stRepush "s1" [9]
      = (UnaryResult.reply StatusCode.alreadyExists ⟨6, "ALREADY EXISTS"⟩, stRepush) ∧
    PushBranchRecord stRepush ⟨"master", "c1"⟩
      = (UnaryResult.abort StatusCode.alreadyExists, stRepush) :=
  repush_idempotent_state_already_exists_status stRepush
    ⟨"c1", 2, [], [0], [1, 2]⟩ ⟨[], [0], [1, 2]⟩ rfl [] "s1" [9] [9] rfl
    ⟨"master", "c1"⟩ rfl

/-- The server obtained by pushing the client commit chain c1, c2 (c2 child of
c1) and branch master at head c2 to a fresh server, through the push handlers
themselves. -/
def pushedTwoServer : ServerState :=
  (PushBranchRecord
    ((PushCommit
      ((PushCommit emptyServer [⟨"c1", 1, [], [0], [5]⟩]).2)
      [⟨"c2", 1, ["c1"], [0], [6]⟩]).2)
    ⟨"master", "c2"⟩).2

/-- C4: missing-set reconciliation is exact set difference.
FetchFindMissingCommits on an existing branch returns exactly the commits of
the server branch history that the client did not list;
PushFindMissingCommits returns exactly the client commits the server does not
hold; and after pushing the chain c1, c2 to an empty server a fresh peer
(empty client commit list) gets back exactly the two commits, with the branch
head at c2. -/
theorem find_missing_commits_exact_set_difference :
    (∀ (st : ServerState) (bn head : String) (cs : List String) (d : String),
        alookup st.branches bn = some head →
        (d ∈ (FetchFindMissingCommits st bn cs).commits ↔
          (d ∈ listHistoryOrder st.refs head ∧ d ∉ cs))) ∧
    (∀ (st : ServerState) (br : BranchRecord) (cs : List String) (d : String),
        d ∈ (PushFindMissingCommits st br cs).commits ↔
          (d ∈ cs ∧ d ∉ list_all_commits st)) ∧
    ("c1" ∈ (FetchFindMissingCommits pushedTwoServer "master" []).commits ∧
     "c2" ∈ (FetchFindMissingCommits pushedTwoServer "master" []).commits ∧
     (FetchFindMissingCommits pushedTwoServer "master" []).commits.length = 2 ∧
     alookup pushedTwoServer.branches "master" = some "c2") := by
  refine ⟨?_, ?_, by decide⟩
  · intro st bn head cs d h
    simp [FetchFindMissingCommits, h, mem_setDiffL]
  · intro st br cs d
    simp [PushFindMissingCommits, mem_setDiffL]

/-- Witness for C4: the general FetchFindMissingCommits set-difference fact
applied at the concrete pushed server with an empty client commit list. -/
theorem find_missing_commits_exact_set_difference_witness :
    alookup pushedTwoServer.branches "master" = some "c2" ∧
    ("c1" ∈ (FetchFindMissingCommits pushedTwoServer "master" []).commits ↔
      ("c1" ∈ listHistoryOrder pushedTwoServer.refs "c2" ∧
        "c1" ∉ ([] : List String))) :=
  ⟨by decide,
   find_missing_commits_exact_set_difference.1 pushedTwoServer "master" "c2" []
     "c1" (by decide)⟩

/-- C5 (behaviour at the failing input): invoking a streaming fetch handler on
a missing record yields exactly one in-band error frame, but the stream then
dies with a RuntimeError instead of terminating normally — the
`raise StopIteration()` inside the generator body is converted by the Python
runtime (PEP 479, Python 3.7 and later) into a RuntimeError, which the
transport surfaces as an error rather than end of stream. -/
theorem fetch_missing_record_stream_runtime_error :
    (FetchCommit emptyServer "c1").frames
      = [{ commit := "c1", total_byte_size := 0, parent := [], spec := [],
           ref := [], error := ⟨5, "COMMIT DOES NOT EXIST ON SERVER"⟩ }] ∧
    (FetchCommit emptyServer "c1").ending = StreamEnd.runtimeError ∧
    (FetchCommit emptyServer "c1").ending ≠ StreamEnd.normal ∧
    (FetchFindDataOrigin emptyServer ["d1"]).frames
      = [FFDOFrame.errFrame ⟨5, "HASH DOES NOT EXIST"⟩] ∧
    (FetchFindDataOrigin emptyServer ["d1"]).ending = StreamEnd.runtimeError := by
  decide

/-- A server holding one string-backend payload: digest d1 resolves to a
locator with backend code 30. -/
def stStringPayload : ServerState :=
  { emptyServer with hashDb := [("d1", "30strloc")] }

/-- Counterexample for C6: FetchFindDataOrigin advertises blosc with cname
blosclz (not zstd) for a string payload — a digest whose locator has backend
code 30 is answered with compression options id blosc, cname blosclz,
clevel 3. -/
theorem fetch_origin_string_payload_blosclz_counterexample :
    (FetchFindDataOrigin stStringPayload ["d1"]).frames
      = [FFDOFrame.origin
          { location := DataLocation.remoteServer, data_type := DataType.str,
            digest := "d1", uri := "d1", compression := true,
            compression_opts :=
              [("id", "blosc"), ("cname", "blosclz"), ("clevel", "3")] }] ∧
    ("blosclz" : String) ≠ "zstd" := by
  decide

/-- Every origin frame produced by the FetchFindDataOrigin loop advertises
blosc / blosclz / level 3, whatever the backend of the digest. -/
theorem ffdo_loop_origin_opts (st : ServerState) (ds : List String) :
    ∀ r : DataOriginReply,
      FFDOFrame.origin r ∈ (FFDOLoop st ds).frames →
        r.compression = true ∧
        r.compression_opts
          = [("id", "blosc"), ("cname", "blosclz"), ("clevel", "3")] := by
  induction ds with
  | nil => intro r h; simp [FFDOLoop] at h
  | cons d rest ih =>
    intro r h
    unfold FFDOLoop at h
    cases hl : alookup st.hashDb d with
    | none =>
        rw [hl] at h
        simp at h
    | some loc =>
        rw [hl] at h
        simp only [] at h
        split at h
        · rcases List.mem_cons.mp h with he | he
          · cases he; exact ⟨rfl, rfl⟩
          · exact ih r he
        · split at h
          · rcases List.mem_cons.mp h with he | he
            · cases he; exact ⟨rfl, rfl⟩
            · exact ih r he
          · split at h
            · rcases List.mem_cons.mp h with he | he
              · cases he; exact ⟨rfl, rfl⟩
              · exact ih r he
            · simp at h

/-- C6 (amended): advertised compression defaults.  FetchFindDataOrigin
advertises blosc / blosclz / level 3 for every payload it reports, for string
payloads (backend code 30) just as for array payloads (codes 00, 01, 10);
only PushFindDataOrigin distinguishes string payloads, expecting
blosc / zstd / level 3 for them and blosc / blosclz / level 3 for arrays and
bytes when compression is desired. -/
theorem advertised_compression_defaults :
    (∀ (st : ServerState) (ds : List String) (r : DataOriginReply),
        FFDOFrame.origin r ∈ (FetchFindDataOrigin st ds).frames →
          r.compression = true ∧
          r.compression_opts
            = [("id", "blosc"), ("cname", "blosclz"), ("clevel", "3")]) ∧
    (∀ req : PushFindDataOriginRequest,
        req.compression_is_desired = true →
        (PushFindDataOriginOne req).compression_expected = true ∧
        (req.data_type = DataType.str →
          (PushFindDataOriginOne req).compression_opts_expected
            = [("id", "blosc"), ("cname", "zstd"), ("clevel", "3")]) ∧
        (req.data_type = DataType.npArray ∨ req.data_type = DataType.bytes →
          (PushFindDataOriginOne req).compression_opts_expected
            = [("id", "blosc"), ("cname", "blosclz"), ("clevel", "3")])) := by
  constructor
  · intro st ds r h
    exact ffdo_loop_origin_opts st ds r h
  · intro req hd
    refine ⟨?_, ?_, ?_⟩
    · cases ht : req.data_type <;> simp [PushFindDataOriginOne, hd, ht]
    · intro ht; simp [PushFindDataOriginOne, hd, ht]
    · rintro (ht | ht) <;> simp [PushFindDataOriginOne, hd, ht]

/-- Witness for C6 (amended): the blosclz options on the concrete string
payload server, and the zstd expectation for a concrete string push
request. -/
theorem advertised_compression_defaults_witness :
    (({ location := DataLocation.remoteServer, data_type := DataType.str,
        digest := "d1", uri := "d1", compression := true,
        compression_opts := [("id", "blosc"), ("cname", "blosclz"), ("clevel", "3")]
      } : DataOriginReply).compression_opts
        = [("id", "blosc"), ("cname", "blosclz"), ("clevel", "3")]) ∧
    (PushFindDataOriginOne ⟨"d1", DataType.str, true⟩).compression_opts_expected
      = [("id", "blosc"), ("cname", "zstd"), ("clevel", "3")] :=
  ⟨(advertised_compression_defaults.1 stStringPayload ["d1"]
      { location := DataLocation.remoteServer, data_type := DataType.str,
        digest := "d1", uri := "d1", compression := true,
        compression_opts := [("id", "blosc"), ("cname", "blosclz"), ("clevel", "3")] }
      (by decide)).2,
   (advertised_compression_defaults.2 ⟨"d1", DataType.str, true⟩ rfl).2.1 rfl⟩

/-- C7: writing the same array bytes a second time — under the same or a
different sample key — yields the same digest, records that digest for both
keys, leaves exactly one locator entry for it in the hash index (the second
write changes the hash index not at all), and the sample count reflects only
the distinct keys recorded. -/
theorem write_same_bytes_twice_single_hash_entry
    (hashOf : Tensor → String) (st : ArraysetState) (k1 k2 : SampleKey)
    (v : Tensor) (st1 st2 : ArraysetState)
    (hk1 : isSuitableUserKey k1 = true) (hk2 : isSuitableUserKey k2 = true)
    (hs : schemaShapeOk st.schema v = true)
    (hfresh : alookup st.hashIndex (hashOf v) = none)
    (hn1 : alookup st.samples k1 = none) (hn2 : alookup st.samples k2 = none)
    (h1 : st1 = (aset_set hashOf st k1 v).1)
    (h2 : st2 = (aset_set hashOf st1 k2 v).1) :
    alookup st2.samples k1 = some (hashOf v) ∧
    alookup st2.samples k2 = some (hashOf v) ∧
    st2.hashIndex = st1.hashIndex ∧
    countKey st2.hashIndex (hashOf v) = 1 ∧
    st2.samples.length = st.samples.length + (if k1 = k2 then 1 else 2) := by
  have e1 : aset_set hashOf st k1 v
      = ({ st with
            samples := aupdate st.samples k1 (hashOf v),
            hashIndex :=
              (hashOf v, "loc" ++ toString st.hashIndex.length) :: st.hashIndex },
          none) := by
    simp [aset_set, hk1, hs, hfresh]
  rw [e1] at h1
  have hs1schema : st1.schema = st.schema := by rw [h1]
  have hs1idx : alookup st1.hashIndex (hashOf v)
      = some ("loc" ++ toString st.hashIndex.length) := by
    rw [h1]; simp [alookup]
  have e2 : aset_set hashOf st1 k2 v
      = ({ st1 with
            samples := aupdate st1.samples k2 (hashOf v),
            hashIndex := st1.hashIndex },
          none) := by
    simp [aset_set, hk2, hs1schema, hs, hs1idx]
  rw [e2] at h2
  have hsam1 : st1.samples = aupdate st.samples k1 (hashOf v) := by rw [h1]
  have hsam2 : st2.samples = aupdate st1.samples k2 (hashOf v) := by rw [h2]
  have hidx2 : st2.hashIndex = st1.hashIndex := by rw [h2]
  refine ⟨?_, ?_, hidx2, ?_, ?_⟩
  · by_cases hk : k1 = k2
    · rw [hsam2, hk]
      exact alookup_aupdate_self _ _ _
    · rw [hsam2, alookup_aupdate_other _ _ _ _ hk, hsam1]
      exact alookup_aupdate_self _ _ _
  · rw [hsam2]
    exact alookup_aupdate_self _ _ _
  · rw [hidx2, h1]
    have hz := countKey_eq_zero_of_alookup_none st.hashIndex (hashOf v) hfresh
    simp [countKey] at hz ⊢
    exact hz
  · have hl1 : st1.samples.length = st.samples.length + 1 := by
      rw [hsam1]
      exact length_aupdate_none _ _ _ hn1
    by_cases hk : k1 = k2
    · have hlook : alookup st1.samples k2 = some (hashOf v) := by
        rw [hsam1, ← hk]
        exact alookup_aupdate_self _ _ _
      rw [hsam2, length_aupdate_some _ _ _ _ hlook, hl1, if_pos hk]
    · have hlook : alookup st1.samples k2 = none := by
        rw [hsam1, alookup_aupdate_other _ _ _ _ (fun he => hk he.symm)]
        exact hn2
      rw [hsam2, length_aupdate_none _ _ _ hlook, hl1, if_neg hk]

/-- Witness for C7: writing one concrete 2-element array twice under the
string keys 1 and 2 on a fresh arrayset leaves a single hash index entry and
two sample keys mapped to the one digest. -/
theorem write_same_bytes_twice_single_hash_entry_witness :
    alookup ((aset_set (fun t => toString t.flat.length)
        ((aset_set (fun t => toString t.flat.length)
          ⟨⟨[2], 0, false⟩, [], []⟩ (SampleKey.strKey "1") ⟨[2], 0, [4, 4]⟩).1)
        (SampleKey.strKey "2") ⟨[2], 0, [4, 4]⟩).1).samples
      (SampleKey.strKey "1") = some "2" ∧
    countKey ((aset_set (fun t => toString t.flat.length)
        ((aset_set (fun t => toString t.flat.length)
          ⟨⟨[2], 0, false⟩, [], []⟩ (SampleKey.strKey "1") ⟨[2], 0, [4, 4]⟩).1)
        (SampleKey.strKey "2") ⟨[2], 0, [4, 4]⟩).1).hashIndex "2" = 1 ∧
    ((aset_set (fun t => toString t.flat.length)
        ((aset_set (fun t => toString t.flat.length)
          ⟨⟨[2], 0, false⟩, [], []⟩ (SampleKey.strKey "1") ⟨[2], 0, [4, 4]⟩).1)
        (SampleKey.strKey "2") ⟨[2], 0, [4, 4]⟩).1).samples.length = 2 := by
  have h := write_same_bytes_twice_single_hash_entry
    (fun t => toString t.flat.length) ⟨⟨[2], 0, false⟩, [], []⟩
    (SampleKey.strKey "1") (SampleKey.strKey "2") ⟨[2], 0, [4, 4]⟩
    _ _ (by decide) (by decide) (by decide) rfl rfl rfl rfl rfl
  exact ⟨h.1, h.2.2.2.1, by rw [h.2.2.2.2]; decide⟩

/-- C8: schema shape validation on sample set.  With variable_shape false any
write whose runtime shape or dtype differs from the schema fails with a
ValueError; with variable_shape true any write whose rank differs from the
schema rank or one of whose dimensions exceeds the per-axis maximum fails with
a ValueError; in both cases the returned arrayset state is the unchanged input
state. -/
theorem schema_validation_rejects_without_mutation :
    (∀ (hashOf : Tensor → String) (st : ArraysetState) (key : SampleKey)
        (v : Tensor),
        isSuitableUserKey key = true →
        st.schema.variable_shape = false →
        (v.shape ≠ st.schema.shape ∨ v.dtype ≠ st.schema.dtype) →
        aset_set hashOf st key v
          = (st, some "ValueError: data incompatible with schema")) ∧
    (∀ (hashOf : Tensor → String) (st : ArraysetState) (key : SampleKey)
        (v : Tensor),
        isSuitableUserKey key = true →
        st.schema.variable_shape = true →
        (v.shape.length ≠ st.schema.shape.length ∨
          ∃ p ∈ v.shape.zip st.schema.shape, p.2 < p.1) →
        aset_set hashOf st key v
          = (st, some "ValueError: data incompatible with schema")) := by
  constructor
  · intro hashOf st key v hkey hvar hne
    have hok : schemaShapeOk st.schema v = false := by
      rcases hne with h | h <;> simp [schemaShapeOk, hvar, h]
    simp [aset_set, hkey, hok]
  · intro hashOf st key v hkey hvar hne
    have hok : schemaShapeOk st.schema v = false := by
      rcases hne with h | h
      · simp [schemaShapeOk, hvar, h]
      · obtain ⟨p, hp, hlt⟩ := h
        have hall : (v.shape.zip st.schema.shape).all
            (fun q => decide (q.1 ≤ q.2)) = false := by
          rw [List.all_eq_false]
          exact ⟨p, hp, by simp [Nat.not_le.mpr hlt]⟩
        simp [schemaShapeOk, hvar, hall]
    simp [aset_set, hkey, hok]

/-- Witness for C8: on a fixed-shape [2, 3] schema a [3, 4] write errors, and
on a variable-shape schema with maxima [2, 3] a [2, 4] write errors, each
leaving the empty arrayset unchanged. -/
theorem schema_validation_rejects_without_mutation_witness :
    aset_set (fun t => toString t.flat.length)
        ⟨⟨[2, 3], 0, false⟩, [], []⟩ (SampleKey.intKey 1) ⟨[3, 4], 0, []⟩
      = (⟨⟨[2, 3], 0, false⟩, [], []⟩,
          some "ValueError: data incompatible with schema") ∧
    aset_set (fun t => toString t.flat.length)
        ⟨⟨[2, 3], 0, true⟩, [], []⟩ (SampleKey.intKey 1) ⟨[2, 4], 0, []⟩
      = (⟨⟨[2, 3], 0, true⟩, [], []⟩,
          some "ValueError: data incompatible with schema") :=
  ⟨schema_validation_rejects_without_mutation.1 (fun t => toString t.flat.length)
      ⟨⟨[2, 3], 0, false⟩, [], []⟩ (SampleKey.intKey 1) ⟨[3, 4], 0, []⟩
      (by decide) rfl (Or.inl (by decide)),
   schema_validation_rejects_without_mutation.2 (fun t => toString t.flat.length)
      ⟨⟨[2, 3], 0, true⟩, [], []⟩ (SampleKey.intKey 1) ⟨[2, 4], 0, []⟩
      (by decide) rfl (Or.inr ⟨(4, 3), by decide, by decide⟩)⟩

/-- C9: sample key validation on set.  A float key, a negative integer key, or
a string key longer than 64 characters each fail with a ValueError, and the
returned arrayset state is exactly the input state — key set and length are
unchanged. -/
theorem invalid_sample_keys_value_error_no_mutation :
    (∀ (hashOf : Tensor → String) (st : ArraysetState) (v : Tensor) (n : Int),
        n < 0 →
        aset_set hashOf st (SampleKey.intKey n) v
          = (st, some "ValueError: invalid sample key")) ∧
    (∀ (hashOf : Tensor → String) (st : ArraysetState) (v : Tensor)
        (num : Int) (den : Nat),
        aset_set hashOf st (SampleKey.floatKey num den) v
          = (st, some "ValueError: invalid sample key")) ∧
    (∀ (hashOf : Tensor → String) (st : ArraysetState) (v : Tensor)
        (s : String), 64 < s.length →
        aset_set hashOf st (SampleKey.strKey s) v
          = (st, some "ValueError: invalid sample key")) := by
  refine ⟨?_, ?_, ?_⟩
  · intro hashOf st v n hn
    have hbad : isSuitableUserKey (SampleKey.intKey n) = false := by
      simp [isSuitableUserKey, Int.not_le.mpr hn]
    simp [aset_set, hbad]
  · intro hashOf st v num den
    simp [aset_set, isSuitableUserKey]
  · intro hashOf st v s hl
    have hbad : isSuitableUserKey (SampleKey.strKey s) = false := by
      simp [isSuitableUserKey, Nat.not_le.mpr hl]
    simp [aset_set, hbad]

/-- Witness for C9: the concrete bad keys of the tests — float 2.1, float 0.0,
integer -1, and a 65-character string — are each rejected on a fresh arrayset,
which is returned unchanged. -/
theorem invalid_sample_keys_value_error_no_mutation_witness :
    aset_set (fun t => toString t.flat.length)
        ⟨⟨[2], 0, false⟩, [], []⟩ (SampleKey.intKey (-1)) ⟨[2], 0, [4, 4]⟩
      = (⟨⟨[2], 0, false⟩, [], []⟩, some "ValueError: invalid sample key") ∧
    aset_set (fun t => toString t.flat.length)
        ⟨⟨[2], 0, false⟩, [], []⟩ (SampleKey.floatKey 21 10) ⟨[2], 0, [4, 4]⟩
      = (⟨⟨[2], 0, false⟩, [], []⟩, some "ValueError: invalid sample key") ∧
    aset_set (fun t => toString t.flat.length)
        ⟨⟨[2], 0, false⟩, [], []⟩
        (SampleKey.strKey
          "VeryLongNameIsInvalidOver64CharactersNotAllowedVeryLongNameIsInva")
        ⟨[2], 0, [4, 4]⟩
      = (⟨⟨[2], 0, false⟩, [], []⟩, some "ValueError: invalid sample key") :=
  ⟨invalid_sample_keys_value_error_no_mutation.1 (fun t => toString t.flat.length)
      ⟨⟨[2], 0, false⟩, [], []⟩ ⟨[2], 0, [4, 4]⟩ (-1) (by decide),
   invalid_sample_keys_value_error_no_mutation.2.1 (fun t => toString t.flat.length)
      ⟨⟨[2], 0, false⟩, [], []⟩ ⟨[2], 0, [4, 4]⟩ 21 10,
   invalid_sample_keys_value_error_no_mutation.2.2 (fun t => toString t.flat.length)
      ⟨⟨[2], 0, false⟩, [], []⟩ ⟨[2], 0, [4, 4]⟩
      "VeryLongNameIsInvalidOver64CharactersNotAllowedVeryLongNameIsInva"
      (by decide)⟩

/-- C10: shape contract of TorchDataset getitem.  With as_dict false the
result is exactly index_get of the index; with as_dict true and one wrapped
column it is a single-entry dict from that column name to index_get; with
as_dict true and two or more columns it is an OrderedDict pairing the column
names, in construction order, with the components of index_get. -/
theorem torch_getitem_shape_contract {V C : Type} (td : TorchDataset V C)
    (i : Nat) :
    (td.as_dict = false →
      torchGetitem td i = TorchItem.raw (td.dataset.index_get i)) ∧
    (∀ n, td.as_dict = true → td.column_names = [n] →
      torchGetitem td i = TorchItem.dict [(n, td.dataset.index_get i)]) ∧
    (td.as_dict = true → 2 ≤ td.column_names.length →
      torchGetitem td i
        = TorchItem.odict (td.column_names.zip (td.dataset.index_get i))) := by
  refine ⟨?_, ?_, ?_⟩
  · intro h
    simp [torchGetitem, h]
  · intro n h hn
    simp [torchGetitem, h, hn]
  · intro h hlen
    rcases hcn : td.column_names with _ | ⟨a, tl⟩
    · rw [hcn] at hlen; simp at hlen
    · rcases htl : tl with _ | ⟨b, tl2⟩
      · rw [hcn, htl] at hlen; simp at hlen
      · rw [htl] at hcn
        simp [torchGetitem, h, hcn]

/-- Witness for C10: the three result shapes on concrete datasets — raw on a
non-dict dataset, a single-entry dict on a one-column dataset, and a zipped
OrderedDict on a two-column dataset. -/
theorem torch_getitem_shape_contract_witness :
    torchGetitem (TorchDataset.make
        ⟨[("x", ()), ("y", ())], fun _ => [5, 6]⟩ false) 0
      = TorchItem.raw ([5, 6] : List Nat) ∧
    torchGetitem (TorchDataset.make ⟨[("x", ())], fun _ => [5]⟩ true) 0
      = TorchItem.dict [("x", ([5] : List Nat))] ∧
    torchGetitem (TorchDataset.make
        ⟨[("x", ()), ("y", ())], fun _ => [5, 6]⟩ true) 0
      = TorchItem.odict [("x", (5 : Nat)), ("y", 6)] :=
  ⟨(torch_getitem_shape_contract
      (TorchDataset.make ⟨[("x", ()), ("y", ())], fun _ => [5, 6]⟩ false) 0).1 rfl,
   (torch_getitem_shape_contract
      (TorchDataset.make ⟨[("x", ())], fun _ => [5]⟩ true) 0).2.1 "x" rfl rfl,
   (torch_getitem_shape_contract
      (TorchDataset.make ⟨[("x", ()), ("y", ())], fun _ => [5, 6]⟩ true) 0).2.2
      rfl (by decide)⟩

end Hangar
